import Mathlib

/-!
Shallow embedding of the travel-planning aggregation logic of the
repository (the `getRouteAndDetails` pipeline of the chat API route and
its provider helpers).  External HTTP providers are modelled as an
explicit environment of pure functions returning `Except Unit` values
(`Except.error` stands for a thrown/failed request, which the JavaScript
code catches); every repository function becomes a pure Lean function of
that environment.  Numeric route quantities (meters, seconds) are
modelled as naturals.
-/

namespace TravelPlanner

/-- A success/failure discriminated result, mirroring the ad-hoc
`{ success: true, ... } / { success: false, message }` objects the
JavaScript helpers return. -/
inductive ApiResult (α : Type) where
  | success (val : α)
  | failure (message : String)
deriving Repr, DecidableEq

def ApiResult.isSuccess {α : Type} : ApiResult α → Bool
  | .success _ => true
  | .failure _ => false

def ApiResult.isFailure {α : Type} : ApiResult α → Bool
  | .success _ => false
  | .failure _ => true

def ApiResult.map {α β : Type} (f : α → β) : ApiResult α → ApiResult β
  | .success a => .success (f a)
  | .failure m => .failure m

/-- Geographic coordinates, `{ lat, lon }` as produced by `getCoordinates`. -/
structure Coordinates where
  lat : Int
  lon : Int
deriving Repr, DecidableEq

/-- One entry of the geocoding response's `features` array; its
`geometry.coordinates` is the pair `[lon, lat]`. -/
structure Feature where
  lon : Int
  lat : Int
deriving Repr, DecidableEq

/-- The `maneuver` object of a route step. -/
structure Maneuver where
  instruction : String
deriving Repr, DecidableEq

/-- One step of a route leg, as used by `getRouteDetails`. -/
structure Step where
  name : String
  maneuver : Maneuver
  distance : Nat
  duration : Nat
deriving Repr, DecidableEq

/-- One leg of a route, carrying its maneuver steps. -/
structure Leg where
  steps : List Step
deriving Repr, DecidableEq

/-- One route of the directions response, with total distance (meters),
total duration (seconds) and its legs. -/
structure Route where
  distance : Nat
  duration : Nat
  legs : List Leg
deriving Repr, DecidableEq

/-- An entry of the `places` list collected by `getRouteDetails` from
the named steps of the first leg. -/
structure RouteStep where
  name : String
  instruction : String
  distance : Nat
  duration : Nat
deriving Repr, DecidableEq

/-- The success payload of `getRouteDetails`. -/
structure RouteData where
  duration : String
  distance : String
  directions : String
  places : List RouteStep
deriving Repr, DecidableEq

/-- One result of the Wikipedia search used by `getPopularPlaces`. -/
structure SearchResult where
  title : String
deriving Repr, DecidableEq

/-- One result of the Wikipedia search used by `getHistoricalInfo`;
its `pageid` may be absent. -/
structure HistSearchResult where
  pageid : Option Nat
deriving Repr, DecidableEq

/-- The Wikipedia page-summary payload used by `getPopularPlaces`
(`title`, `extract`, and `content_urls.desktop.page` flattened to `url`). -/
structure Summary where
  title : String
  extract : String
  url : String
deriving Repr, DecidableEq

/-- A popular place assembled by `getPopularPlaces`. -/
structure PopularPlace where
  title : String
  description : String
  url : String
deriving Repr, DecidableEq

/-- The `history` payload of `getHistoricalInfo`. -/
structure HistoricalInfo where
  summary : String
  source : String
deriving Repr, DecidableEq

/-- One raw venue record of the Foursquare search response; `rating`
may be absent and `categories` may be empty. -/
structure ProviderHotel where
  name : String
  rating : Option String
  address : String
  categories : List String
  fsq_id : String
deriving Repr, DecidableEq

/-- A hotel entry assembled by `getHotelRecommendations`. -/
structure Hotel where
  name : String
  rating : String
  address : String
  category : String
  link : String
deriving Repr, DecidableEq

/-- The parameters `getHotelRecommendations` places in its request URL
(`query=hotel`, `sort=RATING`, `limit=5`, `ll=lat,lon`). -/
structure HotelSearchRequest where
  query : String
  sort : String
  limit : Nat
  ll : Coordinates
deriving Repr, DecidableEq

/-- The aggregate travel plan assembled by `getRouteAndDetails`. -/
structure TravelPlan where
  duration : String
  distance : String
  directions : String
  placesAlongRoute : List RouteStep
  popularPlaces : List PopularPlace
  historicalInfo : Option HistoricalInfo
  hotels : List Hotel
  mapboxUrl : String
  googleMapsUrl : String
deriving Repr, DecidableEq

/-- The external HTTP providers, as pure functions.  `Except.error ()`
models a request that throws (network/HTTP error or malformed payload);
the JavaScript code catches every such error locally. -/
structure Env where
  geocode : String → Except Unit (List Feature)
  directions : Coordinates → Coordinates → String → Except Unit (Option (List Route))
  wikiSearch : String → Except Unit (Option (List SearchResult))
  summary : String → Except Unit Summary
  histSearch : String → Except Unit (List HistSearchResult)
  histContent : Nat → Except Unit String
  histInfoUrl : Nat → Except Unit String
  hotelSearch : HotelSearchRequest → Except Unit (List ProviderHotel)

/-- `getCoordinates`: take the first feature of the geocoding response;
`null` on an empty result set or a request error. -/
def getCoordinates (resp : Except Unit (List Feature)) : Option Coordinates :=
  match resp with
  | .error _ => none
  | .ok [] => none
  | .ok (f :: _) => some { lat := f.lat, lon := f.lon }

/-- `(distance / 1000).toFixed(2)`: render `d` meters as kilometers with
exactly two decimal places (round half up). -/
def formatKmTwoDecimals (d : Nat) : String :=
  let c := (d + 5) / 10
  toString (c / 100) ++ "." ++ (if c % 100 < 10 then "0" else "") ++ toString (c % 100)

/-- The `legs[0].steps.forEach` loop of `getRouteDetails`: push every
step's maneuver instruction onto `directions`, and push the step onto
`places` only when its `name` is non-empty. -/
def stepsLoop : List Step → List String × List RouteStep
  | [] => ([], [])
  | step :: rest =>
    let (ds, ps) := stepsLoop rest
    (step.maneuver.instruction :: ds,
     if step.name = "" then ps
     else { name := step.name, instruction := step.maneuver.instruction,
            distance := step.distance, duration := step.duration } :: ps)

/-- `getRouteDetails`, as a function of the directions response: fail
with the no-routes message when `routes` is missing or empty, fail with
the generic Mapbox message when the request threw (or when reading
`legs[0].steps` throws because `legs` is empty), and otherwise format
the best (first) route. -/
def getRouteDetails (resp : Except Unit (Option (List Route))) : ApiResult RouteData :=
  match resp with
  | .error _ => .failure "Failed to get route details from Mapbox."
  | .ok none => .failure "No routes found. Please check the origin and destination."
  | .ok (some []) => .failure "No routes found. Please check the origin and destination."
  | .ok (some (bestRoute :: _)) =>
    match bestRoute.legs with
    | [] => .failure "Failed to get route details from Mapbox."
    | leg :: _ =>
      let (directions, places) := stepsLoop leg.steps
      .success
        { duration := toString (bestRoute.duration / 60) ++ " minutes"
          distance := formatKmTwoDecimals bestRoute.distance ++ " km"
          directions := String.intercalate " -> " directions
          places := places }

/-- The summary-fetching `for` loop of `getPopularPlaces`: fetch each
title's summary in order, propagating the first request error. -/
def fetchSummaries (env : Env) : List SearchResult → Except Unit (List PopularPlace)
  | [] => .ok []
  | r :: rest =>
    match env.summary r.title with
    | .error e => .error e
    | .ok s =>
      match fetchSummaries env rest with
      | .error e => .error e
      | .ok ps => .ok ({ title := s.title, description := s.extract, url := s.url } :: ps)

/-- `getPopularPlaces`: search Wikipedia, fail on a missing/empty result
list, then fetch summaries for the top `min(length, 5)` results; any
request error anywhere yields the single catch-all failure. -/
def getPopularPlaces (env : Env) (location : String) : ApiResult (List PopularPlace) :=
  match env.wikiSearch location with
  | .error _ => .failure "Failed to get popular places from Wikipedia."
  | .ok none => .failure "No popular places found at the destination."
  | .ok (some []) => .failure "No popular places found at the destination."
  | .ok (some (r :: rest)) =>
    match fetchSummaries env ((r :: rest).take 5) with
    | .error _ => .failure "Failed to get popular places from Wikipedia."
    | .ok places => .success places

/-- `getHistoricalInfo`: search for the location page, take
`search[0]?.pageid` (absent or `0` is falsy and yields the not-found
failure), then fetch the extract and the canonical URL; any request
error yields the catch-all failure. -/
def getHistoricalInfo (env : Env) (location : String) : ApiResult HistoricalInfo :=
  match env.histSearch location with
  | .error _ => .failure "Failed to fetch historical information."
  | .ok searchResults =>
    match (searchResults.head?.bind (·.pageid)).getD 0 with
    | 0 => .failure "No historical information found."
    | Nat.succ n =>
      let pageId := n + 1
      match env.histContent pageId with
      | .error _ => .failure "Failed to fetch historical information."
      | .ok extract =>
        match env.histInfoUrl pageId with
        | .error _ => .failure "Failed to fetch historical information."
        | .ok pageUrl => .success { summary := extract, source := pageUrl }

/-- The request parameters `getHotelRecommendations` sets in its URL:
`query=hotel&ll=lat,lon&sort=RATING&limit=5`. -/
def hotelSearchRequest (coordinates : Coordinates) : HotelSearchRequest :=
  { query := "hotel", sort := "RATING", limit := 5, ll := coordinates }

/-- The per-record reshaping of `getHotelRecommendations`:
`hotel.rating || 'N/A'` and `hotel.categories[0]?.name || 'Hotel'`
(a missing or empty value falls back). -/
def mkHotel (hotel : ProviderHotel) : Hotel :=
  { name := hotel.name
    rating := match hotel.rating with
      | none => "N/A"
      | some r => if r = "" then "N/A" else r
    address := hotel.address
    category := match hotel.categories.head? with
      | none => "Hotel"
      | some c => if c = "" then "Hotel" else c
    link := "https://foursquare.com/v/" ++ hotel.fsq_id }

/-- `getHotelRecommendations`: issue the rating-sorted, limit-5 search
and reshape each returned record; a request error yields failure. -/
def getHotelRecommendations (env : Env) (coordinates : Coordinates) : ApiResult (List Hotel) :=
  match env.hotelSearch (hotelSearchRequest coordinates) with
  | .error _ => .failure "Failed to fetch hotel recommendations."
  | .ok results => .success (results.map mkHotel)

/-- The Mapbox deep link built by `getRouteAndDetails`. -/
def mapboxDirectionsUrl (o d : Coordinates) (travelMode : String) : String :=
  "https://www.mapbox.com/directions/?start=" ++ toString o.lon ++ "," ++ toString o.lat
    ++ "&end=" ++ toString d.lon ++ "," ++ toString d.lat ++ "&profile=" ++ travelMode

/-- The Google Maps deep link built by `getRouteAndDetails`. -/
def googleMapsDirectionsUrl (o d : Coordinates) (travelMode : String) : String :=
  "https://www.google.com/maps/dir/?api=1&origin=" ++ toString o.lat ++ "," ++ toString o.lon
    ++ "&destination=" ++ toString d.lat ++ "," ++ toString d.lon ++ "&travelmode=" ++ travelMode

/-- The enhanced `getRouteAndDetails`: resolve both coordinate lookups
(failing with the fixed message when either is null), gather the four
provider results, propagate a routing failure as the aggregate failure,
and otherwise assemble the `TravelPlan`, defaulting each auxiliary
field on its provider's failure. -/
def getRouteAndDetails (env : Env) (origin destination travelMode : String) :
    ApiResult TravelPlan :=
  match getCoordinates (env.geocode origin), getCoordinates (env.geocode destination) with
  | some originCoords, some destinationCoords =>
    let routeResult := getRouteDetails (env.directions originCoords destinationCoords travelMode)
    let popularPlaces := getPopularPlaces env destination
    let historicalInfo := getHistoricalInfo env destination
    let hotels := getHotelRecommendations env destinationCoords
    match routeResult with
    | .failure message => .failure message
    | .success routeData =>
      .success
        { duration := routeData.duration
          distance := routeData.distance
          directions := routeData.directions
          placesAlongRoute := routeData.places
          popularPlaces := match popularPlaces with
            | .success places => places
            | .failure _ => []
          historicalInfo := match historicalInfo with
            | .success history => some history
            | .failure _ => none
          hotels := match hotels with
            | .success hs => hs
            | .failure _ => []
          mapboxUrl := mapboxDirectionsUrl originCoords destinationCoords travelMode
          googleMapsUrl := googleMapsDirectionsUrl originCoords destinationCoords travelMode }
  | _, _ => .failure "Failed to get coordinates for origin or destination."

/-- `n.toFixed(2)` for an integral number. -/
def natToFixed2 (n : Nat) : String :=
  toString n ++ ".00"

/-- The `.map((x, index) => ...)` idiom: map with the element index. -/
def mapWithIndex {α : Type} (f : Nat → α → String) : Nat → List α → List String
  | _, [] => []
  | i, x :: rest => f i x :: mapWithIndex f (i + 1) rest

/-- One line of the notable-places list of the reply template. -/
def placeLine (index : Nat) (p : RouteStep) : String :=
  toString (index + 1) ++ ". " ++ p.name ++ ": " ++ p.instruction ++ " ("
    ++ natToFixed2 p.distance ++ " m, " ++ toString (p.duration / 60) ++ " min)"

/-- The items of `placesAlongRouteDescription`: the first five notable
places, numbered from 1. -/
def placesAlongRouteItems (places : List RouteStep) : List String :=
  mapWithIndex placeLine 0 (places.take 5)

/-- `placesAlongRouteDescription` of `execute`. -/
def placesAlongRouteDescription (places : List RouteStep) : String :=
  String.intercalate "\n" (placesAlongRouteItems places)

/-- One line of the popular-places list of the reply template. -/
def popularPlaceLine (index : Nat) (p : PopularPlace) : String :=
  toString (index + 1) ++ ". [" ++ p.title ++ "](" ++ p.url ++ "): " ++ p.description

/-- `popularPlacesDescription` of `execute`. -/
def popularPlacesDescription (places : List PopularPlace) : String :=
  String.intercalate "\n" (mapWithIndex popularPlaceLine 0 places)

/-- One entry of the hotel list of the reply template. -/
def hotelLine (index : Nat) (h : Hotel) : String :=
  toString (index + 1) ++ ". [" ++ h.name ++ "](" ++ h.link ++ ") - " ++ h.category
    ++ " (Rating: " ++ h.rating ++ ")\n   Address: " ++ h.address

/-- `hotelRecommendations` of `execute`. -/
def hotelRecommendationsText (hotels : List Hotel) : String :=
  String.intercalate "\n" (mapWithIndex hotelLine 0 hotels)

/-- The historical paragraph of the template: the summary, or the fixed
placeholder sentence when `historicalInfo` is null. -/
def historicalText (info : Option HistoricalInfo) : String :=
  match info with
  | some history => history.summary
  | none => "No historical information available."

/-- The source-link line of the template: present only when
`historicalInfo` is non-null. -/
def historicalLinkText (info : Option HistoricalInfo) : String :=
  match info with
  | some history => "\nRead more: " ++ history.source
  | none => ""

/-- The success-branch reply template of `execute`. -/
def renderTravelPlan (origin destination : String) (result : TravelPlan) : String :=
  "Travel Plan: " ++ origin ++ " to " ++ destination
    ++ "\n\nRoute Information:\n- Duration: " ++ result.duration
    ++ "\n- Distance: " ++ result.distance
    ++ "\n\nDetailed directions: " ++ result.directions
    ++ "\n\nHistorical Information about " ++ destination ++ ":\n"
    ++ historicalText result.historicalInfo
    ++ "\n" ++ historicalLinkText result.historicalInfo
    ++ "\n\nNotable places along the route:\n"
    ++ placesAlongRouteDescription result.placesAlongRoute
    ++ "\n\nPopular places to visit at " ++ destination ++ ":\n"
    ++ popularPlacesDescription result.popularPlaces
    ++ "\n\nRecommended Hotels:\n"
    ++ hotelRecommendationsText result.hotels
    ++ "\n\nInteractive Maps:\n- [Google Maps Directions](" ++ result.googleMapsUrl
    ++ ")\n\nNote: Click the links to view interactive maps and more details about places and hotels."

/-- The text `execute` hands back: the rendered plan on success, the
failure message otherwise. -/
def executeText (env : Env) (origin destination travelMode : String) : String :=
  match getRouteAndDetails env origin destination travelMode with
  | .success result => renderTravelPlan origin destination result
  | .failure message => message

/-! ### Sample provider data, used by concrete witnesses -/

def sampleSteps : List Step :=
  [{ name := "Main Street", maneuver := { instruction := "Turn left onto Main Street" },
     distance := 500, duration := 60 },
   { name := "", maneuver := { instruction := "Continue straight" },
     distance := 1000, duration := 65 }]

def sampleRoute : Route :=
  { distance := 1500, duration := 125, legs := [{ steps := sampleSteps }] }

def sampleHotelRecord : ProviderHotel :=
  { name := "Grand Hotel", rating := none, address := "1 Ring Road",
    categories := [], fsq_id := "abc123" }

/-- An environment in which every provider succeeds. -/
def envOk : Env :=
  { geocode := fun _ => .ok [{ lon := 77, lat := 28 }]
    directions := fun _ _ _ => .ok (some [sampleRoute])
    wikiSearch := fun _ => .ok (some [{ title := "Taj Mahal" }])
    summary := fun t => .ok { title := t, extract := "A famous landmark", url := "https://w/p" }
    histSearch := fun _ => .ok [{ pageid := some 7 }]
    histContent := fun _ => .ok "An old city"
    histInfoUrl := fun _ => .ok "https://w/h"
    hotelSearch := fun _ => .ok [sampleHotelRecord] }

/-- As `envOk`, but geocoding resolves nothing. -/
def envNoGeo : Env := { envOk with geocode := fun _ => .ok [] }

/-- As `envOk`, but the directions provider returns zero routes. -/
def envNoRoutes : Env := { envOk with directions := fun _ _ _ => .ok (some []) }

/-- As `envOk`, but all three auxiliary providers fail. -/
def envAuxFail : Env :=
  { envOk with
    wikiSearch := fun _ => .error ()
    histSearch := fun _ => .error ()
    hotelSearch := fun _ => .error () }

/-- As `envOk`, but every per-result summary fetch fails. -/
def envSummaryFail : Env := { envOk with summary := fun _ => .error () }

/-- As `envOk`, but the hotel search fails. -/
def envHotelFail : Env := { envOk with hotelSearch := fun _ => .error () }

/-- The plan `getRouteAndDetails` produces in `envAuxFail`. -/
def planAuxFail : TravelPlan :=
  { duration := "2 minutes"
    distance := "1.50 km"
    directions := "Turn left onto Main Street -> Continue straight"
    placesAlongRoute := [{ name := "Main Street", instruction := "Turn left onto Main Street",
                           distance := 500, duration := 60 }]
    popularPlaces := []
    historicalInfo := none
    hotels := []
    mapboxUrl := "https://www.mapbox.com/directions/?start=77,28&end=77,28&profile=driving"
    googleMapsUrl :=
      "https://www.google.com/maps/dir/?api=1&origin=28,77&destination=28,77&travelmode=driving" }

/-- Seven named route steps, more than the display cap of five. -/
def sevenPlaces : List RouteStep :=
  (List.range 7).map fun i =>
    { name := "Road " ++ toString i, instruction := "Follow road " ++ toString i,
      distance := 100 * i, duration := 60 * i }

/-! ### Helper lemmas -/

/-- The `forEach` loop of `getRouteDetails` collects every step's
instruction, and exactly the named steps (in order) as places. -/
theorem stepsLoop_eq (steps : List Step) :
    stepsLoop steps =
      (steps.map fun s => s.maneuver.instruction,
       (steps.filter fun s => !(s.name == "")).map fun s =>
         ({ name := s.name, instruction := s.maneuver.instruction,
            distance := s.distance, duration := s.duration } : RouteStep)) := by
  induction steps with
  | nil => rfl
  | cons s rest ih =>
    by_cases h : s.name = "" <;> simp [stepsLoop, ih, List.filter_cons, h]

/-- Spec-side rendering of a distance: `d` meters divided by 1000,
written with exactly two decimal places (round half up) as integer part,
a dot, and a two-digit zero-padded fraction of hundredths. -/
def twoDecimalKm (d : Nat) : String :=
  let hundredths := (100 * d + 500) / 1000
  let intPart := hundredths / 100
  let fracPart := hundredths % 100
  toString intPart ++ "." ++
    (if fracPart < 10 then "0" ++ toString fracPart else toString fracPart)

/-- The code's distance formatting agrees with the spec-side two-decimal
rendering. -/
theorem formatKm_eq_twoDecimalKm (d : Nat) :
    formatKmTwoDecimals d = twoDecimalKm d := by
  unfold formatKmTwoDecimals twoDecimalKm
  have h : (100 * d + 500) / 1000 = (d + 5) / 10 := by omega
  rw [h]
  by_cases h2 : (d + 5) / 10 % 100 < 10
  · simp only [h2, if_true]
    rw [String.append_assoc, String.append_assoc]
  · simp only [h2, if_false]
    rw [String.append_assoc, String.empty_append]

/-- Reduction of `getRouteDetails` on a non-empty routes list whose best
route has a first leg. -/
theorem getRouteDetails_ok (r : Route) (rs : List Route) (leg : Leg) (ls : List Leg)
    (hlegs : r.legs = leg :: ls) :
    getRouteDetails (.ok (some (r :: rs))) = .success
      { duration := toString (r.duration / 60) ++ " minutes"
        distance := formatKmTwoDecimals r.distance ++ " km"
        directions := String.intercalate " -> " (leg.steps.map fun s => s.maneuver.instruction)
        places := (leg.steps.filter fun s => !(s.name == "")).map fun s =>
          { name := s.name, instruction := s.maneuver.instruction,
            distance := s.distance, duration := s.duration } } := by
  simp [getRouteDetails, hlegs, stepsLoop_eq]

/-! ### Claims -/

/-- Claim C2: when both coordinate lookups succeed but the directions
provider returns a missing or empty routes list, `getRouteAndDetails`
fails with exactly the no-routes message. -/
theorem claim_c2 (env : Env) (origin destination travelMode : String) (oc dc : Coordinates)
    (ho : getCoordinates (env.geocode origin) = some oc)
    (hd : getCoordinates (env.geocode destination) = some dc)
    (hr : env.directions oc dc travelMode = .ok none ∨
          env.directions oc dc travelMode = .ok (some [])) :
    getRouteAndDetails env origin destination travelMode =
      .failure "No routes found. Please check the origin and destination." := by
  rcases hr with hr | hr <;> simp [getRouteAndDetails, ho, hd, hr, getRouteDetails]

/-- Concrete instance of claim C2 in an environment whose directions
provider returns zero routes. -/
theorem claim_c2_witness :
    getRouteAndDetails envNoRoutes "Agra" "Delhi" "driving" =
      .failure "No routes found. Please check the origin and destination." :=
  claim_c2 envNoRoutes "Agra" "Delhi" "driving" { lat := 28, lon := 77 } { lat := 28, lon := 77 }
    rfl rfl (Or.inr rfl)

/-- Claim C3: when the geocoding lookup of the origin or of the
destination yields null, `getRouteAndDetails` fails with exactly the
coordinates message, and the result does not depend on the directions
provider at all (it is never invoked). -/
theorem claim_c3 (env : Env) (origin destination travelMode : String)
    (h : getCoordinates (env.geocode origin) = none ∨
         getCoordinates (env.geocode destination) = none) :
    getRouteAndDetails env origin destination travelMode =
      .failure "Failed to get coordinates for origin or destination." ∧
    ∀ dir, getRouteAndDetails { env with directions := dir } origin destination travelMode =
      getRouteAndDetails env origin destination travelMode := by
  constructor
  · rcases h with h | h
    · simp [getRouteAndDetails, h]
    · cases ho : getCoordinates (env.geocode origin) <;> simp [getRouteAndDetails, ho, h]
  · intro dir
    rcases h with h | h
    · simp [getRouteAndDetails, h]
    · cases ho : getCoordinates (env.geocode origin) <;> simp [getRouteAndDetails, ho, h]

/-- Concrete instance of claim C3 in an environment whose geocoder
resolves nothing. -/
theorem claim_c3_witness :
    getRouteAndDetails envNoGeo "Agra" "Delhi" "driving" =
      .failure "Failed to get coordinates for origin or destination." :=
  (claim_c3 envNoGeo "Agra" "Delhi" "driving" (Or.inl rfl)).1

/-- Claim C5: for a successful route, the distance field is the raw
meters divided by 1000 with exactly two decimal places plus " km", and
the duration field is the floor of seconds over 60 plus " minutes";
in particular 1500 m renders as "1.50 km" and 125 s as "2 minutes". -/
theorem claim_c5 (resp : Except Unit (Option (List Route))) (r : Route) (rs : List Route)
    (leg : Leg) (ls : List Leg)
    (hresp : resp = .ok (some (r :: rs))) (hlegs : r.legs = leg :: ls) :
    (∃ rd, getRouteDetails resp = .success rd ∧
      rd.distance = twoDecimalKm r.distance ++ " km" ∧
      rd.duration = toString (r.duration / 60) ++ " minutes") ∧
    twoDecimalKm 1500 ++ " km" = "1.50 km" ∧
    toString (125 / 60) ++ " minutes" = "2 minutes" := by
  subst hresp
  refine ⟨⟨_, getRouteDetails_ok r rs leg ls hlegs, ?_, ?_⟩, rfl, rfl⟩
  · simp [formatKm_eq_twoDecimalKm]
  · rfl

/-- Concrete instance of claim C5 at a 1500 m, 125 s route. -/
theorem claim_c5_witness :
    (∃ rd, getRouteDetails (.ok (some [sampleRoute])) = .success rd ∧
      rd.distance = twoDecimalKm sampleRoute.distance ++ " km" ∧
      rd.duration = toString (sampleRoute.duration / 60) ++ " minutes") ∧
    twoDecimalKm 1500 ++ " km" = "1.50 km" ∧
    toString (125 / 60) ++ " minutes" = "2 minutes" :=
  claim_c5 (.ok (some [sampleRoute])) sampleRoute [] { steps := sampleSteps } [] rfl rfl

/-- Claim C6: for a successful route, the places list is exactly the
named steps of the first leg in travel order, while the joined
directions string is every step's maneuver instruction (named or not)
joined in step order with " -> ". -/
theorem claim_c6 (resp : Except Unit (Option (List Route))) (r : Route) (rs : List Route)
    (leg : Leg) (ls : List Leg)
    (hresp : resp = .ok (some (r :: rs))) (hlegs : r.legs = leg :: ls) :
    ∃ rd, getRouteDetails resp = .success rd ∧
      rd.places = (leg.steps.filter fun s => !(s.name == "")).map
        (fun s => { name := s.name, instruction := s.maneuver.instruction,
                    distance := s.distance, duration := s.duration }) ∧
      rd.directions = String.intercalate " -> "
        (leg.steps.map fun s => s.maneuver.instruction) := by
  subst hresp
  exact ⟨_, getRouteDetails_ok r rs leg ls hlegs, rfl, rfl⟩

/-- Concrete instance of claim C6 on a two-step leg with one unnamed
step. -/
theorem claim_c6_witness :
    ∃ rd, getRouteDetails (.ok (some [sampleRoute])) = .success rd ∧
      rd.places = (sampleSteps.filter fun s => !(s.name == "")).map
        (fun s => { name := s.name, instruction := s.maneuver.instruction,
                    distance := s.distance, duration := s.duration }) ∧
      rd.directions = String.intercalate " -> "
        (sampleSteps.map fun s => s.maneuver.instruction) :=
  claim_c6 (.ok (some [sampleRoute])) sampleRoute [] { steps := sampleSteps } [] rfl rfl

/-- Claim C1: the aggregate succeeds exactly when both coordinate
lookups are non-null and the routing call succeeds (so no auxiliary
failure can fail the aggregate), and on success a PlaceDiscovery
failure empties `popularPlaces`, a HistoricalInfoProvider failure nulls
`historicalInfo`, and a LodgingFinder failure empties `hotels`. -/
theorem claim_c1 (env : Env) (origin destination travelMode : String) :
    ((∃ plan, getRouteAndDetails env origin destination travelMode = .success plan) ↔
      ∃ oc dc, getCoordinates (env.geocode origin) = some oc ∧
        getCoordinates (env.geocode destination) = some dc ∧
        (getRouteDetails (env.directions oc dc travelMode)).isSuccess = true) ∧
    (∀ plan oc dc,
      getCoordinates (env.geocode origin) = some oc →
      getCoordinates (env.geocode destination) = some dc →
      getRouteAndDetails env origin destination travelMode = .success plan →
      ((getPopularPlaces env destination).isFailure = true → plan.popularPlaces = []) ∧
      ((getHistoricalInfo env destination).isFailure = true → plan.historicalInfo = none) ∧
      ((getHotelRecommendations env dc).isFailure = true → plan.hotels = [])) := by
  cases ho : getCoordinates (env.geocode origin) with
  | none =>
    constructor
    · constructor
      · rintro ⟨plan, hp⟩
        simp [getRouteAndDetails, ho] at hp
      · rintro ⟨oc, dc, h1, h2, h3⟩
        exact Option.noConfusion h1
    · intro plan oc dc h1 h2 hp
      exact Option.noConfusion h1
  | some oc0 =>
    cases hd : getCoordinates (env.geocode destination) with
    | none =>
      constructor
      · constructor
        · rintro ⟨plan, hp⟩
          simp [getRouteAndDetails, ho, hd] at hp
        · rintro ⟨oc, dc, h1, h2, h3⟩
          exact Option.noConfusion h2
      · intro plan oc dc h1 h2 hp
        exact Option.noConfusion h2
    | some dc0 =>
      cases hr : getRouteDetails (env.directions oc0 dc0 travelMode) with
      | failure m =>
        constructor
        · constructor
          · rintro ⟨plan, hp⟩
            simp [getRouteAndDetails, ho, hd, hr] at hp
          · rintro ⟨oc, dc, h1, h2, h3⟩
            cases h1
            cases h2
            rw [hr] at h3
            simp [ApiResult.isSuccess] at h3
        · intro plan oc dc h1 h2 hp
          simp [getRouteAndDetails, ho, hd, hr] at hp
      | success rd =>
        constructor
        · constructor
          · intro _
            exact ⟨oc0, dc0, rfl, rfl, by rw [hr]; rfl⟩
          · intro _
            cases hgr : getRouteAndDetails env origin destination travelMode with
            | success p => exact ⟨p, rfl⟩
            | failure m2 => simp [getRouteAndDetails, ho, hd, hr] at hgr
        · intro plan oc dc h1 h2 hp
          cases h1
          cases h2
          simp [getRouteAndDetails, ho, hd, hr] at hp
          refine ⟨?_, ?_, ?_⟩ <;> intro hf
          · cases hpp : getPopularPlaces env destination with
            | success ps =>
              rw [hpp] at hf
              simp [ApiResult.isFailure] at hf
            | failure m =>
              rw [← hp]
              simp [hpp]
          · cases hh : getHistoricalInfo env destination with
            | success h =>
              rw [hh] at hf
              simp [ApiResult.isFailure] at hf
            | failure m =>
              rw [← hp]
              simp [hh]
          · cases hht : getHotelRecommendations env dc0 with
            | success hs =>
              rw [hht] at hf
              simp [ApiResult.isFailure] at hf
            | failure m =>
              rw [← hp]
              simp [hht]

/-- Concrete instance of claim C1: with all three auxiliary providers
failing, the aggregate is still constructed, with empty popular places,
null historical info and empty hotels. -/
theorem claim_c1_witness :
    getRouteAndDetails envAuxFail "Agra" "Delhi" "driving" = .success planAuxFail ∧
    planAuxFail.popularPlaces = [] ∧ planAuxFail.historicalInfo = none ∧
    planAuxFail.hotels = [] :=
  have h := (claim_c1 envAuxFail "Agra" "Delhi" "driving").2 planAuxFail
    { lat := 28, lon := 77 } { lat := 28, lon := 77 } rfl rfl rfl
  ⟨rfl, h.1 rfl, h.2.1 rfl, h.2.2 rfl⟩

/-- `fetchSummaries` depends only on the summary provider. -/
theorem fetchSummaries_congr (env₁ env₂ : Env) (h : env₁.summary = env₂.summary) :
    ∀ l, fetchSummaries env₁ l = fetchSummaries env₂ l := by
  intro l
  induction l with
  | nil => rfl
  | cons r rest ih => simp [fetchSummaries, h, ih]

/-- `getPopularPlaces` depends only on the wiki-search and summary
providers. -/
theorem getPopularPlaces_congr (env₁ env₂ : Env) (hw : env₁.wikiSearch = env₂.wikiSearch)
    (hs : env₁.summary = env₂.summary) (loc : String) :
    getPopularPlaces env₁ loc = getPopularPlaces env₂ loc := by
  unfold getPopularPlaces
  simp only [hw, fetchSummaries_congr env₁ env₂ hs]

/-- `getHistoricalInfo` depends only on the three historical providers. -/
theorem getHistoricalInfo_congr (env₁ env₂ : Env) (h1 : env₁.histSearch = env₂.histSearch)
    (h2 : env₁.histContent = env₂.histContent) (h3 : env₁.histInfoUrl = env₂.histInfoUrl)
    (loc : String) :
    getHistoricalInfo env₁ loc = getHistoricalInfo env₂ loc := by
  unfold getHistoricalInfo
  simp only [h1, h2, h3]

/-- `getHotelRecommendations` depends only on the hotel-search provider. -/
theorem getHotelRecommendations_congr (env₁ env₂ : Env)
    (h : env₁.hotelSearch = env₂.hotelSearch) (c : Coordinates) :
    getHotelRecommendations env₁ c = getHotelRecommendations env₂ c := by
  unfold getHotelRecommendations
  simp only [h]

/-- Claim C4: with the geocoding and directions providers fixed, the
duration, distance, directions and route-places fields of the aggregate
do not depend on the auxiliary providers at all, and each auxiliary
field depends only on its own provider. -/
theorem claim_c4 (env₁ env₂ : Env) (origin destination travelMode : String)
    (hg : env₁.geocode = env₂.geocode) (hdir : env₁.directions = env₂.directions) :
    ((getRouteAndDetails env₁ origin destination travelMode).map
        (fun p => (p.duration, p.distance, p.directions, p.placesAlongRoute)) =
      (getRouteAndDetails env₂ origin destination travelMode).map
        (fun p => (p.duration, p.distance, p.directions, p.placesAlongRoute))) ∧
    (env₁.wikiSearch = env₂.wikiSearch → env₁.summary = env₂.summary →
      (getRouteAndDetails env₁ origin destination travelMode).map (fun p => p.popularPlaces) =
      (getRouteAndDetails env₂ origin destination travelMode).map (fun p => p.popularPlaces)) ∧
    (env₁.histSearch = env₂.histSearch → env₁.histContent = env₂.histContent →
      env₁.histInfoUrl = env₂.histInfoUrl →
      (getRouteAndDetails env₁ origin destination travelMode).map (fun p => p.historicalInfo) =
      (getRouteAndDetails env₂ origin destination travelMode).map (fun p => p.historicalInfo)) ∧
    (env₁.hotelSearch = env₂.hotelSearch →
      (getRouteAndDetails env₁ origin destination travelMode).map (fun p => p.hotels) =
      (getRouteAndDetails env₂ origin destination travelMode).map (fun p => p.hotels)) := by
  cases ho : getCoordinates (env₂.geocode origin) with
  | none =>
    have ho₁ : getCoordinates (env₁.geocode origin) = none := by rw [hg, ho]
    refine ⟨?_, fun _ _ => ?_, fun _ _ _ => ?_, fun _ => ?_⟩ <;>
      simp [getRouteAndDetails, ho, ho₁]
  | some oc =>
    have ho₁ : getCoordinates (env₁.geocode origin) = some oc := by rw [hg, ho]
    cases hd : getCoordinates (env₂.geocode destination) with
    | none =>
      have hd₁ : getCoordinates (env₁.geocode destination) = none := by rw [hg, hd]
      refine ⟨?_, fun _ _ => ?_, fun _ _ _ => ?_, fun _ => ?_⟩ <;>
        simp [getRouteAndDetails, ho, ho₁, hd, hd₁]
    | some dc =>
      have hd₁ : getCoordinates (env₁.geocode destination) = some dc := by rw [hg, hd]
      cases hr : getRouteDetails (env₂.directions oc dc travelMode) with
      | failure m =>
        have hr₁ : getRouteDetails (env₁.directions oc dc travelMode) = .failure m := by
          rw [hdir, hr]
        refine ⟨?_, fun _ _ => ?_, fun _ _ _ => ?_, fun _ => ?_⟩ <;>
          simp [getRouteAndDetails, ho, ho₁, hd, hd₁, hr, hr₁, ApiResult.map]
      | success rd =>
        have hr₁ : getRouteDetails (env₁.directions oc dc travelMode) = .success rd := by
          rw [hdir, hr]
        refine ⟨?_, ?_, ?_, ?_⟩
        · simp [getRouteAndDetails, ho, ho₁, hd, hd₁, hr, hr₁, ApiResult.map]
        · intro hw hs
          simp [getRouteAndDetails, ho, ho₁, hd, hd₁, hr, hr₁, ApiResult.map,
            getPopularPlaces_congr env₁ env₂ hw hs]
        · intro h1 h2 h3
          simp [getRouteAndDetails, ho, ho₁, hd, hd₁, hr, hr₁, ApiResult.map,
            getHistoricalInfo_congr env₁ env₂ h1 h2 h3]
        · intro hh
          simp [getRouteAndDetails, ho, ho₁, hd, hd₁, hr, hr₁, ApiResult.map,
            getHotelRecommendations_congr env₁ env₂ hh]

/-- Concrete instance of claim C4: failing only the hotel provider
leaves the route fields, the popular places and the historical info of
the aggregate unchanged. -/
theorem claim_c4_witness :
    ((getRouteAndDetails envOk "Agra" "Delhi" "driving").map
        (fun p => (p.duration, p.distance, p.directions, p.placesAlongRoute)) =
      (getRouteAndDetails envHotelFail "Agra" "Delhi" "driving").map
        (fun p => (p.duration, p.distance, p.directions, p.placesAlongRoute))) ∧
    ((getRouteAndDetails envOk "Agra" "Delhi" "driving").map (fun p => p.popularPlaces) =
      (getRouteAndDetails envHotelFail "Agra" "Delhi" "driving").map (fun p => p.popularPlaces)) ∧
    ((getRouteAndDetails envOk "Agra" "Delhi" "driving").map (fun p => p.historicalInfo) =
      (getRouteAndDetails envHotelFail "Agra" "Delhi" "driving").map (fun p => p.historicalInfo)) :=
  have h := claim_c4 envOk envHotelFail "Agra" "Delhi" "driving" rfl rfl
  ⟨h.1, h.2.1 rfl rfl, h.2.2.1 rfl rfl rfl⟩

/-- `mapWithIndex` preserves length. -/
theorem mapWithIndex_length {α : Type} (f : Nat → α → String) :
    ∀ (l : List α) (i : Nat), (mapWithIndex f i l).length = l.length := by
  intro l
  induction l with
  | nil => intro i; rfl
  | cons x rest ih => intro i; simp [mapWithIndex, ih]

/-- The `j`-th element of `mapWithIndex f i l` is `f (i + j)` of the
`j`-th element of `l`. -/
theorem mapWithIndex_get? {α : Type} (f : Nat → α → String) :
    ∀ (l : List α) (i j : Nat), (mapWithIndex f i l).get? j = (l.get? j).map (f (i + j)) := by
  intro l
  induction l with
  | nil => intro i j; simp [mapWithIndex]
  | cons x rest ih =>
    intro i j
    cases j with
    | zero => simp [mapWithIndex]
    | succ j' =>
      simp only [mapWithIndex, List.get?]
      rw [ih (i + 1) j', Nat.add_assoc, Nat.add_comm 1 j']

/-- Claim C7: the rendered notable-places section lists at most 5
entries (the first five of `placesAlongRoute`), each numbered from 1 in
iteration order. -/
theorem claim_c7 (places : List RouteStep) :
    (placesAlongRouteItems places).length = min places.length 5 ∧
    (placesAlongRouteItems places).length ≤ 5 ∧
    (∀ i, i < (placesAlongRouteItems places).length →
      ∃ rest, (placesAlongRouteItems places).get? i = some (toString (i + 1) ++ ". " ++ rest)) ∧
    placesAlongRouteDescription places =
      String.intercalate "\n" (placesAlongRouteItems places) := by
  have hlen : (placesAlongRouteItems places).length = min places.length 5 := by
    simp [placesAlongRouteItems, mapWithIndex_length, Nat.min_comm]
  refine ⟨hlen, by rw [hlen]; exact min_le_right _ _, ?_, rfl⟩
  intro i hi
  rw [hlen, lt_min_iff] at hi
  have hi' : i < (places.take 5).length := by
    rw [List.length_take, lt_min_iff]
    exact ⟨hi.2, hi.1⟩
  cases hp : (places.take 5).get? i with
  | none =>
    rw [List.get?_eq_none] at hp
    omega
  | some p =>
    refine ⟨p.name ++ ": " ++ p.instruction ++ " (" ++ natToFixed2 p.distance
      ++ " m, " ++ toString (p.duration / 60) ++ " min)", ?_⟩
    rw [placesAlongRouteItems, mapWithIndex_get? placeLine (places.take 5) 0 i, hp]
    simp [placeLine, String.append_assoc]

/-- Concrete instance of claim C7 on a seven-place list: five rendered
items, the first numbered 1. -/
theorem claim_c7_witness :
    (placesAlongRouteItems sevenPlaces).length = min sevenPlaces.length 5 ∧
    ∃ rest, (placesAlongRouteItems sevenPlaces).get? 0 =
      some (toString (0 + 1) ++ ". " ++ rest) :=
  ⟨(claim_c7 sevenPlaces).1,
   (claim_c7 sevenPlaces).2.2.1 0 (by rw [(claim_c7 sevenPlaces).1]; decide)⟩

/-- Claim C8: `getHotelRecommendations` issues a request that limits
and rank-orders results by rating (`limit=5`, `sort=RATING`); when the
provider honours the request limit the output has at most 5 entries,
and each entry lacking a rating renders "N/A" while each lacking a
category renders "Hotel". -/
theorem claim_c8 (env : Env) (c : Coordinates) (hs : List ProviderHotel)
    (hresp : env.hotelSearch (hotelSearchRequest c) = .ok hs)
    (hlim : hs.length ≤ (hotelSearchRequest c).limit) :
    (hotelSearchRequest c).limit = 5 ∧
    (hotelSearchRequest c).sort = "RATING" ∧
    ∃ hotels, getHotelRecommendations env c = .success hotels ∧
      hotels.length ≤ 5 ∧
      ∀ i ph, hs.get? i = some ph →
        ∃ h, hotels.get? i = some h ∧
          (ph.rating = none → h.rating = "N/A") ∧
          (ph.categories = [] → h.category = "Hotel") := by
  refine ⟨rfl, rfl, hs.map mkHotel, ?_, ?_, ?_⟩
  · simp [getHotelRecommendations, hresp]
  · simpa [hotelSearchRequest] using hlim
  · intro i ph hget
    refine ⟨mkHotel ph, ?_, ?_, ?_⟩
    · rw [List.get?_map, hget]
      rfl
    · intro hnone
      simp [mkHotel, hnone]
    · intro hcats
      simp [mkHotel, hcats]

/-- Concrete instance of claim C8 on a one-record response whose record
lacks both rating and category. -/
theorem claim_c8_witness :
    (hotelSearchRequest { lat := 28, lon := 77 }).limit = 5 ∧
    (hotelSearchRequest { lat := 28, lon := 77 }).sort = "RATING" ∧
    ∃ hotels, getHotelRecommendations envOk { lat := 28, lon := 77 } = .success hotels ∧
      hotels.length ≤ 5 ∧
      ∀ i ph, [sampleHotelRecord].get? i = some ph →
        ∃ h, hotels.get? i = some h ∧
          (ph.rating = none → h.rating = "N/A") ∧
          (ph.categories = [] → h.category = "Hotel") :=
  claim_c8 envOk { lat := 28, lon := 77 } [sampleHotelRecord] rfl (by decide)

/-- Claim C9: when the historical lookup fails but routing succeeds,
the plan's `historicalInfo` is null, the reply is still the rendered
plan, that rendering still carries the route summary (duration and
distance), and its historical section is exactly the fixed placeholder
sentence immediately followed by the next section header - no source
link. -/
theorem claim_c9 (env : Env) (origin destination travelMode : String) (plan : TravelPlan)
    (hfail : (getHistoricalInfo env destination).isFailure = true)
    (hplan : getRouteAndDetails env origin destination travelMode = .success plan) :
    plan.historicalInfo = none ∧
    executeText env origin destination travelMode = renderTravelPlan origin destination plan ∧
    (∃ a b, renderTravelPlan origin destination plan =
      a ++ ("\n\nRoute Information:\n- Duration: " ++ plan.duration ++ "\n- Distance: "
        ++ plan.distance ++ "\n\nDetailed directions: ") ++ b) ∧
    (∃ a b, renderTravelPlan origin destination plan =
      a ++ ("\n\nHistorical Information about " ++ destination ++ ":\n"
        ++ "No historical information available." ++ "\n"
        ++ "\n\nNotable places along the route:\n") ++ b) := by
  have hnone : plan.historicalInfo = none := by
    cases ho : getCoordinates (env.geocode origin) with
    | none => simp [getRouteAndDetails, ho] at hplan
    | some oc =>
      cases hd : getCoordinates (env.geocode destination) with
      | none => simp [getRouteAndDetails, ho, hd] at hplan
      | some dc =>
        cases hr : getRouteDetails (env.directions oc dc travelMode) with
        | failure m => simp [getRouteAndDetails, ho, hd, hr] at hplan
        | success rd =>
          simp [getRouteAndDetails, ho, hd, hr] at hplan
          rw [← hplan]
          cases hh : getHistoricalInfo env destination with
          | success h =>
            rw [hh] at hfail
            simp [ApiResult.isFailure] at hfail
          | failure m => simp
  refine ⟨hnone, ?_, ?_, ?_⟩
  · simp [executeText, hplan]
  · refine ⟨"Travel Plan: " ++ origin ++ " to " ++ destination,
      plan.directions
        ++ "\n\nHistorical Information about " ++ destination ++ ":\n"
        ++ historicalText plan.historicalInfo
        ++ "\n" ++ historicalLinkText plan.historicalInfo
        ++ "\n\nNotable places along the route:\n"
        ++ placesAlongRouteDescription plan.placesAlongRoute
        ++ "\n\nPopular places to visit at " ++ destination ++ ":\n"
        ++ popularPlacesDescription plan.popularPlaces
        ++ "\n\nRecommended Hotels:\n"
        ++ hotelRecommendationsText plan.hotels
        ++ "\n\nInteractive Maps:\n- [Google Maps Directions](" ++ plan.googleMapsUrl
        ++ ")\n\nNote: Click the links to view interactive maps and more details about places and hotels.",
      ?_⟩
    simp [renderTravelPlan, String.append_assoc]
  · refine ⟨"Travel Plan: " ++ origin ++ " to " ++ destination
        ++ "\n\nRoute Information:\n- Duration: " ++ plan.duration
        ++ "\n- Distance: " ++ plan.distance
        ++ "\n\nDetailed directions: " ++ plan.directions,
      placesAlongRouteDescription plan.placesAlongRoute
        ++ "\n\nPopular places to visit at " ++ destination ++ ":\n"
        ++ popularPlacesDescription plan.popularPlaces
        ++ "\n\nRecommended Hotels:\n"
        ++ hotelRecommendationsText plan.hotels
        ++ "\n\nInteractive Maps:\n- [Google Maps Directions](" ++ plan.googleMapsUrl
        ++ ")\n\nNote: Click the links to view interactive maps and more details about places and hotels.",
      ?_⟩
    simp [renderTravelPlan, historicalText, historicalLinkText, hnone,
      String.append_assoc, String.append_empty, String.empty_append]

/-- Concrete instance of claim C9 in an environment whose historical
provider fails while routing succeeds. -/
theorem claim_c9_witness :
    planAuxFail.historicalInfo = none ∧
    executeText envAuxFail "Agra" "Delhi" "driving" =
      renderTravelPlan "Agra" "Delhi" planAuxFail :=
  have h := claim_c9 envAuxFail "Agra" "Delhi" "driving" planAuxFail rfl rfl
  ⟨h.1, h.2.1⟩

/-- If any member of the list has a failing summary fetch, the whole
summary loop fails. -/
theorem fetchSummaries_error (env : Env) :
    ∀ l : List SearchResult, (∃ r ∈ l, env.summary r.title = .error ()) →
      fetchSummaries env l = .error () := by
  intro l
  induction l with
  | nil =>
    rintro ⟨r, hr, _⟩
    cases hr
  | cons x rest ih =>
    rintro ⟨r, hr, herr⟩
    cases hx : env.summary x.title with
    | error e =>
      cases e
      simp [fetchSummaries, hx]
    | ok s =>
      have hrest : ∃ r ∈ rest, env.summary r.title = .error () := by
        rcases List.mem_cons.mp hr with rfl | hmem
        · rw [hx] at herr
          cases herr
        · exact ⟨r, hmem, herr⟩
      simp [fetchSummaries, hx, ih hrest]

/-- A successful summary loop returns exactly one place per input. -/
theorem fetchSummaries_length (env : Env) :
    ∀ (l : List SearchResult) (ps : List PopularPlace),
      fetchSummaries env l = .ok ps → ps.length = l.length := by
  intro l
  induction l with
  | nil =>
    intro ps h
    simp [fetchSummaries] at h
    simp [← h]
  | cons x rest ih =>
    intro ps h
    cases hx : env.summary x.title with
    | error e => simp [fetchSummaries, hx] at h
    | ok s =>
      cases hrec : fetchSummaries env rest with
      | error e => simp [fetchSummaries, hx, hrec] at h
      | ok ps' =>
        simp [fetchSummaries, hx, hrec] at h
        rw [← h]
        simp [ih ps' hrec]

/-- Claim C10: with a non-empty search result, a failing summary fetch
at any index below the cap makes `getPopularPlaces` fail outright
(earlier summaries are discarded), a success always carries exactly
`min(length, 5)` places, and so the aggregate's `popularPlaces` is
either empty or that full list - never a partial prefix. -/
theorem claim_c10 (env : Env) (loc : String) (sr : List SearchResult)
    (hsearch : env.wikiSearch loc = .ok (some sr)) (hne : sr ≠ []) :
    ((∃ i r, sr.get? i = some r ∧ i < 5 ∧ env.summary r.title = .error ()) →
      getPopularPlaces env loc = .failure "Failed to get popular places from Wikipedia.") ∧
    (∀ ps, getPopularPlaces env loc = .success ps → ps.length = min sr.length 5) ∧
    (∀ origin travelMode plan,
      getRouteAndDetails env origin loc travelMode = .success plan →
      plan.popularPlaces = [] ∨ plan.popularPlaces.length = min sr.length 5) := by
  obtain ⟨r0, rest0, rfl⟩ := List.exists_cons_of_ne_nil hne
  have hlen : ∀ ps, getPopularPlaces env loc = .success ps →
      ps.length = min (r0 :: rest0).length 5 := by
    intro ps hps
    simp only [getPopularPlaces, hsearch] at hps
    cases hf : fetchSummaries env ((r0 :: rest0).take 5) with
    | error e => rw [hf] at hps; cases hps
    | ok ps' =>
      rw [hf] at hps
      cases hps
      rw [fetchSummaries_length env _ _ hf, List.length_take, Nat.min_comm]
  refine ⟨?_, hlen, ?_⟩
  · rintro ⟨i, r, hget, hi, herr⟩
    have hmem : r ∈ (r0 :: rest0).take 5 :=
      List.get?_mem (by rw [List.get?_take hi]; exact hget)
    have hfail := fetchSummaries_error env ((r0 :: rest0).take 5) ⟨r, hmem, herr⟩
    simp only [getPopularPlaces, hsearch]
    rw [hfail]
  · intro origin travelMode plan hplan
    cases ho : getCoordinates (env.geocode origin) with
    | none => simp [getRouteAndDetails, ho] at hplan
    | some oc =>
      cases hd : getCoordinates (env.geocode loc) with
      | none => simp [getRouteAndDetails, ho, hd] at hplan
      | some dc =>
        cases hr : getRouteDetails (env.directions oc dc travelMode) with
        | failure m => simp [getRouteAndDetails, ho, hd, hr] at hplan
        | success rd =>
          simp [getRouteAndDetails, ho, hd, hr] at hplan
          rw [← hplan]
          cases hpp : getPopularPlaces env loc with
          | success ps =>
            right
            simpa using hlen ps hpp
          | failure m =>
            left
            simp

/-- Concrete instance of claim C10: a failing summary fetch at index 0
discards everything and fails the whole lookup. -/
theorem claim_c10_witness :
    getPopularPlaces envSummaryFail "Delhi" =
      .failure "Failed to get popular places from Wikipedia." :=
  (claim_c10 envSummaryFail "Delhi" [{ title := "Taj Mahal" }] rfl (by decide)).1
    ⟨0, { title := "Taj Mahal" }, rfl, by decide, rfl⟩

end TravelPlanner
